import Mathlib

/-!
# Shallow embedding of `qutebrowser/browser/commands.py` (`CommandDispatcher`)

This file embeds the tab-navigation, target-resolution, open-dispatch,
URL-input-parsing, search-continuation, selection-override, buffer-resolution
and tab-move logic of the command dispatcher, and proves the testable
properties stated about it.

Modelling conventions:
* Python `int` is `Int`; Python `%` on a positive divisor agrees with `Int.emod`
  (`%` on `Int`), both yielding a result in `[0, divisor)`.
* A Qt tab widget is a list of tab handles plus a current index (`-1` when the
  widget is empty, as in Qt).
* A raised `CommandError` is an `Except.error`; commands that also perform
  toolkit side effects return a list/option of effect descriptions, so an
  error result entails that no toolkit call was made after the raise.
* The framework helper `cmdutils.check_overflow` (a 32-bit range assertion on
  values that are small in every reachable state here) is elided.
-/

namespace Commands

/-- A tab handle: an opaque identity plus its `data.pinned` flag. -/
structure Tab where
  id : Nat
  pinned : Bool := false
deriving DecidableEq, Repr

/-- The tab-container widget: an ordered sequence of tabs and a current index.
Qt reports `currentIndex = -1` when the widget holds no tabs. -/
structure Widget where
  tabs : List Tab
  currentIndex : Int
deriving DecidableEq, Repr

/-- `self._count()`: the number of tabs in the widget. -/
def Widget.count (w : Widget) : Nat := w.tabs.length

/-- `currentWidget()`: the tab at the current index, `none` when out of range
(in particular when the widget is empty and the index is `-1`). -/
def Widget.currentWidget (w : Widget) : Option Tab :=
  if 0 ≤ w.currentIndex then w.tabs.get? w.currentIndex.toNat else none

/-- `setCurrentIndex(idx)` on the widget (the toolkit call made by
`_set_current_index`). -/
def Widget.setCurrentIndex (w : Widget) (idx : Int) : Widget :=
  { w with currentIndex := idx }

/-- A single quote character (used in user-visible messages and mark names). -/
def sq : String := String.singleton (Char.ofNat 39)

/-- `CommandDispatcher.tab_prev`: switch `count` tabs back.  Returns the
updated widget; the command never raises (the out-of-range no-wrap case only
logs "First tab"). -/
def tab_prev (wrap : Bool) (w : Widget) (count : Int) : Widget :=
  if w.count = 0 then
    -- Running :tab-prev after last tab was closed
    w
  else
    let newidx := w.currentIndex - count
    if 0 ≤ newidx then w.setCurrentIndex newidx
    else if wrap then w.setCurrentIndex (newidx % (w.count : Int))
    else w

/-- `CommandDispatcher.tab_next`: switch `count` tabs forward.  Returns the
updated widget; the command never raises (the out-of-range no-wrap case only
logs "Last tab"). -/
def tab_next (wrap : Bool) (w : Widget) (count : Int) : Widget :=
  if w.count = 0 then
    -- Running :tab-next after last tab was closed
    w
  else
    let newidx := w.currentIndex + count
    if newidx < (w.count : Int) then w.setCurrentIndex newidx
    else if wrap then w.setCurrentIndex (newidx % (w.count : Int))
    else w

/-- Mirrors the guards of `tab_prev`: `true` exactly when the call reaches the
branch that evaluates `newidx % self._count()`. -/
def tab_prev_mod_branch (wrap : Bool) (w : Widget) (count : Int) : Bool :=
  if w.count = 0 then false
  else
    let newidx := w.currentIndex - count
    if 0 ≤ newidx then false
    else wrap

/-- Mirrors the guards of `tab_next`: `true` exactly when the call reaches the
branch that evaluates `newidx % self._count()`. -/
def tab_next_mod_branch (wrap : Bool) (w : Widget) (count : Int) : Bool :=
  if w.count = 0 then false
  else
    let newidx := w.currentIndex + count
    if newidx < (w.count : Int) then false
    else wrap

/-- `CommandDispatcher._cntwidget`: return the current tab when `count` is
absent, the tab at 1-based position `count` when `1 <= count <= self._count()`,
and `none` otherwise. -/
def _cntwidget (w : Widget) (count : Option Int) : Option Tab :=
  match count with
  | none => w.currentWidget
  | some c =>
    if 1 ≤ c ∧ c ≤ (w.count : Int) then w.tabs.get? (c - 1).toNat
    else none

/-- A delegated per-tab toolkit call issued by a count-based command. -/
inductive TabEffect where
  | reload (t : Tab) (force : Bool)
  | stop (t : Tab)
  | setPinned (t : Tab) (pinned : Bool)
deriving DecidableEq, Repr

/-- `CommandDispatcher.reloadpage`: reload the current/count-th tab, silently
doing nothing when `_cntwidget` yields no tab. -/
def reloadpage (w : Widget) (force : Bool) (count : Option Int) :
    Option TabEffect :=
  match _cntwidget w count with
  | none => none
  | some t => some (.reload t force)

/-- `CommandDispatcher.stop`: stop loading in the current/count-th tab,
silently doing nothing when `_cntwidget` yields no tab. -/
def stop (w : Widget) (count : Option Int) : Option TabEffect :=
  match _cntwidget w count with
  | none => none
  | some t => some (.stop t)

/-- `CommandDispatcher.tab_pin`: toggle the pinned state of the current/
count-th tab, silently doing nothing when `_cntwidget` yields no tab. -/
def tab_pin (w : Widget) (count : Option Int) : Option TabEffect :=
  match _cntwidget w count with
  | none => none
  | some t => some (.setPinned t (! t.pinned))

/-- A URL value (`QUrl`), abstracted to its text and its validity. -/
structure QUrl where
  s : String
  valid : Bool
deriving DecidableEq, Repr

/-- Errors a command can signal: an invalid URL (from
`urlutils.raise_cmdexc_if_invalid`), a violated flag mutual-exclusion check
(from `cmdutils.check_exclusive`), or a `cmdexc.CommandError` raised directly
in the dispatcher. -/
inductive CmdError where
  | invalidUrl (u : QUrl)
  | exclusiveFlags (names : String)
  | commandError (msg : String)
  | valueError (msg : String)
deriving DecidableEq, Repr

/-- Modelled from the spec: `cmdutils.check_exclusive` (command framework, not
part of this module) — "At most one destination flag may be set; violating
this signals an argument error before any toolkit call."  Signals an argument
error when more than one of the given flags is truthy. -/
def check_exclusive (flags : List Bool) (names : String) :
    Except CmdError Unit :=
  if 1 < (flags.filter id).length then .error (.exclusiveFlags names)
  else .ok ()

/-- Modelled from the spec: `urlutils.raise_cmdexc_if_invalid` (URL utility
module, not part of this module) — every toolkit-level invalid-URL failure is
signalled at the dispatcher boundary before navigation. -/
def raise_cmdexc_if_invalid (u : QUrl) : Except CmdError Unit :=
  if u.valid then .ok () else .error (.invalidUrl u)

/-- The single toolkit navigation call `_open` ends in. -/
inductive OpenAction where
  | newWindowOpen (priv : Bool) (url : QUrl)
  | tabopen (url : QUrl) (background : Bool) (related : Bool)
  | openInCurrent (t : Tab) (url : QUrl)
deriving DecidableEq, Repr

/-- `CommandDispatcher._open`: open `url` in the destination selected by the
flags.  `priv = none` means the `private` argument was not given; when a new
window is requested without it, the current window's private mode
(`curPrivate`) is inherited.  An error result means no navigation call was
made. -/
def _open (w : Widget) (curPrivate : Bool) (url : QUrl)
    (tab background window : Bool) (related : Bool) (priv : Option Bool) :
    Except CmdError OpenAction := do
  raise_cmdexc_if_invalid url
  check_exclusive [tab, background, window, priv.getD false] "tbwp"
  let priv := if window && priv.isNone then some curPrivate else priv
  if window || priv.getD false then
    pure (.newWindowOpen (priv.getD false) url)
  else if tab then
    pure (.tabopen url false related)
  else if background then
    pure (.tabopen url true related)
  else
    match w.currentWidget with
    | none => throw (.commandError "No WebView available yet!")
    | some t => pure (.openInCurrent t url)

/-- The URL-resolution collaborators consumed by `_parse_url` and
`_parse_url_input` (the quickmark manager and `urlutils`, both outside this
module), abstracted as opaque functions: `is_url s` is whether `s` is a
syntactically valid URL; `path_exists s` is whether
`get_path_if_valid(s, check_exists=True)` finds an existing filesystem path;
`quickmark s` is the quickmark URL registered under name `s`, if any;
`fuzzy_url s f` is heuristic URL-or-search resolution with `force_search = f`,
`none` when it raises `InvalidUrlError` (reported as a non-fatal message and
skipped). -/
structure UrlEnv where
  is_url : String → Bool
  path_exists : String → Bool
  quickmark : String → Option QUrl
  fuzzy_url : String → Bool → Option QUrl

/-- `CommandDispatcher._parse_url`: resolve one input line, trying the
quickmark manager first and falling back to heuristic URL-or-search
resolution. -/
def _parse_url (env : UrlEnv) (url : String) (force_search : Bool) :
    Option QUrl :=
  match env.quickmark url with
  | some u => some u
  | none => env.fuzzy_url url force_search

/-- The argument of `_parse_url_input`: either an already-parsed `QUrl` or a
raw string. -/
inductive UrlInput where
  | qurl (u : QUrl)
  | str (s : String)
deriving DecidableEq, Repr

/-- Helper for `splitLines`: accumulates the current line (reversed) while
scanning the remaining characters. -/
def splitLinesAux : List Char → List Char → List String
  | [], acc => [String.mk acc.reverse]
  | c :: rest, acc =>
    if c = '\n' then String.mk acc.reverse :: splitLinesAux rest []
    else splitLinesAux rest (c :: acc)

/-- Python `s.split('\n')`: split at every newline, keeping empty pieces. -/
def splitLines (s : String) : List String :=
  splitLinesAux s.data []

/-- Python `u.strip()` is empty, i.e. `u` consists only of whitespace. -/
def isBlank (u : String) : Bool :=
  u.data.all (fun c => c.isWhitespace)

/-- The `urllist` computed by `_parse_url_input`: the non-blank lines of the
input string (`[u for u in url.split(newline) if u.strip()]`). -/
def nonBlankLines (s : String) : List String :=
  (splitLines s).filter (fun u => ! isBlank u)

/-- `CommandDispatcher._parse_url_input`: parse a URL or newline-separated
list of URLs, yielding the list of URLs that can be opened.  A multi-line
input whose first line is neither a valid URL nor an existing path is not
split: the whole string is resolved once with `force_search = True`. -/
def _parse_url_input (env : UrlEnv) (url : UrlInput) : List QUrl :=
  match url with
  | .qurl u => [u]
  | .str s =>
    let urllist := nonBlankLines s
    let one_query :=
      decide (1 < urllist.length) &&
        (match urllist.head? with
          | some u0 => !env.is_url u0 && !env.path_exists u0
          | none => false)
    let (urllist, force_search) :=
      if one_query then ([s], true) else (urllist, false)
    urllist.filterMap (fun u => _parse_url env u force_search)

/-- The options dict built by `search` and stored per window. -/
structure SearchOptions where
  ignore_case : Bool
  reverse : Bool
deriving DecidableEq, Repr

/-- Per-window search state (`TabbedBrowser.search_text` and
`search_options`); `search_text = none` is the distinct "no search yet"
state. -/
structure SearchState where
  search_text : Option String
  search_options : Option SearchOptions
deriving DecidableEq, Repr

/-- The per-tab search bookkeeping read by the dispatcher (`tab.search.text`
and `tab.search.search_displayed`). -/
structure SearchTab where
  text : Option String
  search_displayed : Bool
deriving DecidableEq, Repr

/-- A toolkit call issued by the search commands.  A callback argument
`some prev` records that `_search_cb` was attached with that `prev` flag;
`none` records a call made without a result callback. -/
inductive SearchOp where
  | setMark (name : String)
  | clearSearch
  | issueSearch (text : String) (options : SearchOptions) (cb : Option Bool)
  | nextResult (cb : Option Bool)
  | prevResult (cb : Option Bool)
deriving DecidableEq, Repr

/-- The direction computed by `_search_cb`:
`going_up = options[reverse] ^ prev`. -/
def search_going_up (options : SearchOptions) (prev : Bool) : Bool :=
  Bool.xor options.reverse prev

/-- The user-visible message chosen by `_search_cb`. -/
inductive SearchMessage where
  | hitBottomContinuingTop
  | hitTopContinuingBottom
  | notFound (text : String)
deriving DecidableEq, Repr

/-- `CommandDispatcher._search_cb`: report wraparound (scroll position moved
against the effective direction) or a failed search. -/
def _search_cb (found : Bool) (oldScrollY newScrollY : Int)
    (options : SearchOptions) (text : String) (prev : Bool) :
    Option SearchMessage :=
  let going_up := search_going_up options prev
  if found then
    if !going_up && decide (newScrollY < oldScrollY) then
      some .hitBottomContinuingTop
    else if going_up && decide (oldScrollY < newScrollY) then
      some .hitTopContinuingBottom
    else none
  else some (.notFound text)

/-- `CommandDispatcher.search`: search for `text` on the current page (clear
results when `text` is empty).  Returns the toolkit calls made and either the
updated per-window search state or the raised error.  The current tab is
passed as `tab` (`none` when no tab exists); `cfgIgnoreCase` is the external
`search.ignore_case` config value. -/
def search (st : SearchState) (cfgIgnoreCase : Bool) (tab : Option SearchTab)
    (text : String) (reverse : Bool) :
    List SearchOp × Except CmdError SearchState :=
  let ops := [SearchOp.setMark sq]
  match tab with
  | none => (ops, .error (.commandError "No WebView available yet!"))
  | some tb =>
    if text = "" then
      (ops ++ (if tb.search_displayed then [SearchOp.clearSearch] else []),
        .ok st)
    else
      let options : SearchOptions :=
        { ignore_case := cfgIgnoreCase, reverse := reverse }
      (ops ++ [SearchOp.issueSearch text options (some false)],
        .ok { search_text := some text, search_options := some options })

/-- `CommandDispatcher.search_next`: continue the stored search to the
count-th next term.  `search_options` is `none` only when `search_text` is,
in which case the command errors before reading it (the `getD` default is
never used in a reachable state). -/
def search_next (st : SearchState) (tab : Option SearchTab) (count : Int) :
    List SearchOp × Except CmdError SearchState :=
  match tab with
  | none => ([], .error (.commandError "No WebView available yet!"))
  | some tb =>
    match st.search_text with
    | none => ([], .error (.commandError "No search done yet."))
    | some window_text =>
      let window_options :=
        st.search_options.getD { ignore_case := false, reverse := false }
      let ops := [SearchOp.setMark sq]
      let (ops, count) :=
        if some window_text ≠ tb.text then
          (ops ++ [SearchOp.clearSearch,
            SearchOp.issueSearch window_text window_options none], count - 1)
        else (ops, count)
      if count = 0 then (ops, .ok st)
      else
        (ops ++ List.replicate (count - 1).toNat (SearchOp.nextResult none) ++
          [SearchOp.nextResult (some false)], .ok st)

/-- `CommandDispatcher.search_prev`: continue the stored search to the
count-th previous term. -/
def search_prev (st : SearchState) (tab : Option SearchTab) (count : Int) :
    List SearchOp × Except CmdError SearchState :=
  match tab with
  | none => ([], .error (.commandError "No WebView available yet!"))
  | some tb =>
    match st.search_text with
    | none => ([], .error (.commandError "No search done yet."))
    | some window_text =>
      let window_options :=
        st.search_options.getD { ignore_case := false, reverse := false }
      let ops := [SearchOp.setMark sq]
      let (ops, count) :=
        if some window_text ≠ tb.text then
          (ops ++ [SearchOp.clearSearch,
            SearchOp.issueSearch window_text window_options none], count - 1)
        else (ops, count)
      if count = 0 then (ops, .ok st)
      else
        (ops ++ List.replicate (count - 1).toNat (SearchOp.prevResult none) ++
          [SearchOp.prevResult (some true)], .ok st)

/-- The `QTabBar` selection-behavior values the `tabs.select_on_remove`
config option can produce (`left`, `right`, `last-used`). -/
inductive SelectionBehavior where
  | selectLeftTab
  | selectRightTab
  | selectPreviousTab
deriving DecidableEq, Repr

/-- `CommandDispatcher._get_selection_override`: pick which neighboring tab
becomes active after closing the current one.  `confSelection` is the external
`tabs.select_on_remove` config value; `none` means no override of the
configured behavior. -/
def _get_selection_override (confSelection : SelectionBehavior)
    (prev next_ opposite : Bool) :
    Except CmdError (Option SelectionBehavior) := do
  check_exclusive [prev, next_, opposite] "pno"
  if prev then pure (some .selectLeftTab)
  else if next_ then pure (some .selectRightTab)
  else if opposite then
    match confSelection with
    | .selectLeftTab => pure (some .selectRightTab)
    | .selectRightTab => pure (some .selectLeftTab)
    | .selectPreviousTab =>
      throw (.commandError ("-o is not supported with " ++ sq ++
        "tabs.select_on_remove" ++ sq ++ " set to " ++ sq ++ "last-used" ++
        sq ++ "!"))
  else pure none

/-- The `index` argument of `tab-move`: `+` or `-` for relative moves, or an
absolute 1-based index (negative counts from the end). -/
inductive TabMoveIndex where
  | plus
  | minus
  | abs (i : Int)
deriving DecidableEq, Repr

/-- `CommandDispatcher.tab_move`: move the current tab.  With `+`/`-` the
move is relative (wraparound per the external `tabs.wrap` config flag);
otherwise the target is `count - 1`, else `index` resolved 1-based (negative
from the end), else position 0.  An out-of-range target raises, and an error
result means no `moveTab` toolkit call was made.  The final `moveTab` removes
the current tab and re-inserts it at the target; Qt keeps the moved tab
current, so the current index becomes the target (the unreachable case of a
current index outside the list is a Qt no-op). -/
def tab_move (wrap : Bool) (w : Widget) (index : Option TabMoveIndex)
    (count : Option Int) : Except CmdError Widget :=
  let new_idx : Int :=
    if index = some .plus ∨ index = some .minus then
      let delta := count.getD 1
      let n :=
        if index = some .minus then w.currentIndex - delta
        else w.currentIndex + delta
      if wrap then n % (w.count : Int) else n
    else
      match count with
      | some c => c - 1
      | none =>
        match index with
        | some (.abs i) => if 0 ≤ i then i - 1 else i + (w.count : Int)
        | _ => 0
  if 0 ≤ new_idx ∧ new_idx < (w.count : Int) then
    match w.tabs.get? w.currentIndex.toNat with
    | some t =>
      .ok { tabs := (w.tabs.eraseIdx w.currentIndex.toNat).insertIdx
              new_idx.toNat t,
            currentIndex := new_idx }
    | none => .ok w
  else
    .error (.commandError ("Can" ++ sq ++ "t move tab to position " ++
      toString (new_idx + 1) ++ "!"))

/-- Python `s.strip()`: remove leading and trailing whitespace. -/
def pyStrip (s : String) : String :=
  String.mk (((s.data.dropWhile Char.isWhitespace).reverse.dropWhile
    Char.isWhitespace).reverse)

/-- The numeric value of a list of decimal digit characters. -/
def digitsToNat (l : List Char) : Nat :=
  l.foldl (fun acc c => acc * 10 + (c.toNat - 48)) 0

/-- Model of the Python `int()` constructor on strings: optional surrounding
whitespace, an optional sign, then one or more decimal digits; `none` models
a raised `ValueError`. -/
def pyInt (s : String) : Option Int :=
  let t := (pyStrip s).data
  let signed : Bool × List Char :=
    match t with
    | c :: rest =>
      if c = '-' then (true, rest)
      else if c = '+' then (false, rest)
      else (false, t)
    | [] => (false, t)
  if signed.2.isEmpty then none
  else if signed.2.all Char.isDigit then
    some (if signed.1 then -(digitsToNat signed.2 : Int)
      else (digitsToNat signed.2 : Int))
  else none

/-- Helper for `pySplitOnce`: accumulates the piece before the separator. -/
def splitOnceAux (sep : Char) : List Char → List Char → List String
  | [], acc => [String.mk acc.reverse]
  | c :: rest, acc =>
    if c = sep then [String.mk acc.reverse, String.mk rest]
    else splitOnceAux sep rest (c :: acc)

/-- Python `s.split(sep, 1)`: split at the first occurrence of `sep` only,
yielding one or two pieces. -/
def pySplitOnce (s : String) (sep : Char) : List String :=
  splitOnceAux sep s.data []

/-- One application window in the window registry: its id and its tab
widget. -/
structure BrowserWindow where
  winId : Nat
  widget : Widget
deriving DecidableEq, Repr

/-- The collaborators consumed by buffer resolution: the window registry
(`objreg.window_registry`), the active window, and the completion model.
`fuzzyMatches` is modelled from the spec: `miscmodels.buffer` (completion
module, not part of this module) treats a non-integer pattern as a fuzzy
substring match against titles/URLs across all windows and returns ranked
`window-id/index` data strings. -/
structure AppEnv where
  windows : List BrowserWindow
  activeWindow : Option Nat
  fuzzyMatches : String → List String

/-- The tail of `_resolve_buffer_index` after `index_parts` is fixed: parse
the window id and 1-based tab index (a `valueError` models an uncaught Python
`ValueError`, reachable only from a malformed completion-model string), look
the window up in the registry, bounds-check the index and return the target
window id and tab.  The inner `none` case of the final lookup is unreachable
(`0 < idx ≤ count` guarantees the index is in range). -/
def _resolve_from_parts (env : AppEnv) (index_parts : List String) :
    Except CmdError (Nat × Tab) := do
  let (win_id, idx) ← (do
    match index_parts with
    | [p0, p1] =>
      match pyInt p0, pyInt p1 with
      | some wv, some iv => pure ((wv, iv) : Int × Int)
      | _, _ => throw (.valueError "invalid literal for int with base 10")
    | [p0] =>
      match pyInt p0 with
      | some iv =>
        match env.activeWindow with
        | none => throw (.commandError ("No window specified and couldn" ++
            sq ++ "t find active window!"))
        | some wid => pure ((wid : Int), iv)
      | none => throw (.valueError "invalid literal for int with base 10")
    | _ => throw (.valueError "invalid literal for int with base 10") :
    Except CmdError (Int × Int))
  match env.windows.find? (fun b => ((b.winId : Int) == win_id)) with
  | none => throw (.commandError ("There" ++ sq ++ "s no window with id " ++
      toString win_id ++ "!"))
  | some bw =>
    if 0 < idx ∧ idx ≤ (bw.widget.count : Int) then
      match bw.widget.tabs.get? (idx - 1).toNat with
      | some t => pure (bw.winId, t)
      | none => throw (.valueError "unreachable index")
    else throw (.commandError ("There" ++ sq ++ "s no tab with index " ++
      toString idx ++ "!"))

/-- `CommandDispatcher._resolve_buffer_index`: resolve a `[win_id/]index`
string, or — when some part is not integer-parseable — the first ranked
fuzzy match of the completion model, erroring with "No matching tab" when
there is none. -/
def _resolve_buffer_index (env : AppEnv) (index : String) :
    Except CmdError (Nat × Tab) :=
  let index_parts := pySplitOnce index '/'
  if index_parts.all (fun p => (pyInt p).isSome) then
    _resolve_from_parts env index_parts
  else
    match env.fuzzyMatches index with
    | [] => .error (.commandError ("No matching tab for: " ++ index))
    | m :: _ => _resolve_from_parts env (pySplitOnce m '/')

/-- The outcome of the `buffer` command. -/
inductive BufferAction where
  | openTabsPage
  | focusTab (winId : Nat) (t : Tab)
deriving DecidableEq, Repr

/-- `CommandDispatcher.buffer`: with neither index nor count, open the
tab-overview page; otherwise resolve the index (count, stringified, takes
precedence) and focus the resulting window and tab. -/
def buffer (env : AppEnv) (index : Option String) (count : Option Int) :
    Except CmdError BufferAction := do
  match count, index with
  | none, none => pure .openTabsPage
  | _, _ =>
    let idxStr :=
      match count with
      | some c => toString c
      | none => index.getD ""
    let (wid, t) ← _resolve_buffer_index env idxStr
    pure (.focusTab wid t)

/-- A concrete three-tab widget with the last tab current, used as a witness
input. -/
def witWidget : Widget :=
  { tabs := [⟨0, false⟩, ⟨1, false⟩, ⟨2, false⟩], currentIndex := 2 }

/-- A concrete four-tab widget with the third tab current (the spec's
`tab-move` example), used as a witness input. -/
def witWidget4 : Widget :=
  { tabs := [⟨0, false⟩, ⟨1, false⟩, ⟨2, false⟩, ⟨3, false⟩],
    currentIndex := 2 }

end Commands

namespace Commands

/-- C1: for `tab_next`/`tab_prev` on a window with at least one tab, the new
current index is current plus (resp. minus) count; if that value falls outside
`[0, tab_count)` and wraparound is enabled it is reduced modulo the tab count;
if wraparound is disabled the widget is left unchanged and no error is raised
(the commands are total functions into `Widget`). -/
theorem tab_nav_relative (wrap : Bool) (w : Widget) (cnt : Int)
    (hne : 1 ≤ w.count) (hlo : 0 ≤ w.currentIndex)
    (hhi : w.currentIndex < (w.count : Int)) (hcnt : 1 ≤ cnt) :
    ((w.currentIndex + cnt < (w.count : Int) →
        tab_next wrap w cnt = w.setCurrentIndex (w.currentIndex + cnt)) ∧
      ((w.count : Int) ≤ w.currentIndex + cnt → wrap = true →
        tab_next wrap w cnt =
          w.setCurrentIndex ((w.currentIndex + cnt) % (w.count : Int))) ∧
      ((w.count : Int) ≤ w.currentIndex + cnt → wrap = false →
        tab_next wrap w cnt = w)) ∧
    ((0 ≤ w.currentIndex - cnt →
        tab_prev wrap w cnt = w.setCurrentIndex (w.currentIndex - cnt)) ∧
      (w.currentIndex - cnt < 0 → wrap = true →
        tab_prev wrap w cnt =
          w.setCurrentIndex ((w.currentIndex - cnt) % (w.count : Int))) ∧
      (w.currentIndex - cnt < 0 → wrap = false →
        tab_prev wrap w cnt = w)) := by
  have h0 : ¬ w.count = 0 := by omega
  refine ⟨⟨?_, ?_, ?_⟩, ?_, ?_, ?_⟩
  · intro h
    simp [tab_next, h0, h]
  · intro h hw
    have h1 : ¬ w.currentIndex + cnt < (w.count : Int) := by omega
    simp [tab_next, h0, h1, hw]
  · intro h hw
    have h1 : ¬ w.currentIndex + cnt < (w.count : Int) := by omega
    simp [tab_next, h0, h1, hw]
  · intro h
    simp [tab_prev, h0, h]
  · intro h hw
    have h1 : ¬ 0 ≤ w.currentIndex - cnt := by omega
    simp [tab_prev, h0, h1, hw]
  · intro h hw
    have h1 : ¬ 0 ≤ w.currentIndex - cnt := by omega
    simp [tab_prev, h0, h1, hw]

/-- Witness for C1: on a three-tab window with current index 2, `tab_next`
with count 2 and wraparound enabled wraps to index `(2 + 2) % 3 = 1`. -/
theorem tab_nav_relative_witness :
    tab_next true witWidget 2 = witWidget.setCurrentIndex 1 := by
  have h := (tab_nav_relative true witWidget 2 (by decide) (by decide)
    (by decide) (by decide)).1.2.1 (by decide) rfl
  exact h.trans (by decide)

/-- C2: `_cntwidget` returns the current tab when the count is absent, the tab
at 1-based position `c` when `1 ≤ c ≤ tab_count`, and `none` for every other
`c` (no out-of-bounds access); the callers `reload`, `stop` and `tab-pin` then
silently perform no toolkit call on a `none` result. -/
theorem cntwidget_resolution (w : Widget) (c : Int) (force : Bool) :
    (_cntwidget w none = w.currentWidget) ∧
      (1 ≤ c → c ≤ (w.count : Int) →
        ∃ t, w.tabs.get? (c - 1).toNat = some t ∧
          _cntwidget w (some c) = some t) ∧
      (c < 1 ∨ (w.count : Int) < c →
        _cntwidget w (some c) = none ∧ reloadpage w force (some c) = none ∧
          stop w (some c) = none ∧ tab_pin w (some c) = none) := by
  refine ⟨rfl, ?_, ?_⟩
  · intro h1 h2
    have hlt : (c - 1).toNat < w.tabs.length := by
      have hc : (w.count : Int) = (w.tabs.length : Int) := rfl
      omega
    refine ⟨w.tabs.get ⟨(c - 1).toNat, hlt⟩, List.get?_eq_get hlt, ?_⟩
    simp [_cntwidget, h1, h2, List.get?_eq_get hlt]
  · intro h
    have hcond : ¬ (1 ≤ c ∧ c ≤ (w.count : Int)) := by omega
    simp [_cntwidget, reloadpage, stop, tab_pin, hcond]

/-- Witness for C2: on a three-tab window, count 2 resolves to the second tab
while count 5 resolves to nothing and `reload`, `stop`, `tab-pin` no-op. -/
theorem cntwidget_resolution_witness :
    (∃ t, witWidget.tabs.get? ((2 : Int) - 1).toNat = some t ∧
      _cntwidget witWidget (some 2) = some t) ∧
    _cntwidget witWidget (some 5) = none ∧
    reloadpage witWidget true (some 5) = none ∧
    stop witWidget (some 5) = none ∧
    tab_pin witWidget (some 5) = none :=
  ⟨(cntwidget_resolution witWidget 2 true).2.1 (by decide) (by decide),
    (cntwidget_resolution witWidget 5 true).2.2 (by decide)⟩

/-- C3: when two or more of the destination flags `{tab, background, window,
private}` are truthy, `_open` signals an error before any navigation call (no
`.ok` action is ever produced, and on a valid URL the error is precisely the
argument-exclusion error); when at most one is truthy, the argument-exclusion
error is never raised. -/
theorem open_exclusive_flags (w : Widget) (curPrivate : Bool) (url : QUrl)
    (tab background window related : Bool) (priv : Option Bool) :
    (1 < (([tab, background, window, priv.getD false].filter id).length) →
      (∀ a, _open w curPrivate url tab background window related priv ≠
        .ok a) ∧
      (url.valid = true →
        _open w curPrivate url tab background window related priv =
          .error (.exclusiveFlags "tbwp"))) ∧
    ((([tab, background, window, priv.getD false].filter id).length ≤ 1) →
      _open w curPrivate url tab background window related priv ≠
        .error (.exclusiveFlags "tbwp")) := by
  constructor
  · intro hcnt
    have herr : check_exclusive [tab, background, window, priv.getD false]
        "tbwp" = .error (.exclusiveFlags "tbwp") := by
      simp only [check_exclusive, if_pos hcnt]
    constructor
    · intro a
      cases hv : url.valid with
      | false =>
        simp [_open, raise_cmdexc_if_invalid, hv, Bind.bind, Except.bind]
      | true =>
        simp [_open, raise_cmdexc_if_invalid, hv, herr, Bind.bind,
          Except.bind]
    · intro hv
      simp [_open, raise_cmdexc_if_invalid, hv, herr, Bind.bind, Except.bind]
  · intro hcnt
    have hnot : ¬ 1 <
        (([tab, background, window, priv.getD false].filter id).length) := by
      omega
    have hok : check_exclusive [tab, background, window, priv.getD false]
        "tbwp" = .ok () := by
      simp only [check_exclusive, if_neg hnot]
    cases hv : url.valid with
    | false =>
      simp [_open, raise_cmdexc_if_invalid, hv, Bind.bind, Except.bind]
    | true =>
      simp only [_open, raise_cmdexc_if_invalid, hv, hok, if_true,
        Bind.bind, Except.bind]
      split_ifs <;> (try cases w.currentWidget) <;>
        simp [pure, Except.pure, throw, throwThe, MonadExceptOf.throw]

/-- Witness for C3: with both `tab` and `window` set on a valid URL, `_open`
signals the argument-exclusion error; with only `tab` set it does not. -/
theorem open_exclusive_flags_witness :
    _open witWidget false ⟨"http://e.com", true⟩ true false true false none =
        .error (.exclusiveFlags "tbwp") ∧
      _open witWidget false ⟨"http://e.com", true⟩ true false false false
        none ≠ .error (.exclusiveFlags "tbwp") :=
  ⟨((open_exclusive_flags witWidget false ⟨"http://e.com", true⟩ true false
      true false none).1 (by decide)).2 rfl,
    (open_exclusive_flags witWidget false ⟨"http://e.com", true⟩ true false
      false false none).2 (by decide)⟩

/-- C4: a multi-line input with more than one non-blank line whose first line
is neither a syntactically valid URL nor an existing filesystem path is not
split: the whole string is resolved once as a forced search query; in every
other case each non-blank line is resolved separately in order. -/
theorem parse_url_input_multiline (env : UrlEnv) (s u0 : String) :
    (1 < (nonBlankLines s).length → (nonBlankLines s).head? = some u0 →
      env.is_url u0 = false → env.path_exists u0 = false →
      _parse_url_input env (.str s) = (_parse_url env s true).toList) ∧
    (1 < (nonBlankLines s).length → (nonBlankLines s).head? = some u0 →
      (env.is_url u0 = true ∨ env.path_exists u0 = true) →
      _parse_url_input env (.str s) =
        (nonBlankLines s).filterMap (fun u => _parse_url env u false)) ∧
    ((nonBlankLines s).length ≤ 1 →
      _parse_url_input env (.str s) =
        (nonBlankLines s).filterMap (fun u => _parse_url env u false)) := by
  refine ⟨?_, ?_, ?_⟩
  · intro hlen hhead hu hp
    simp only [_parse_url_input, hhead, hu, hp, decide_eq_true hlen,
      Bool.not_false, Bool.and_self, Bool.true_and, if_true]
    cases hres : _parse_url env s true <;> simp [hres]
  · intro hlen hhead hor
    have hfalse : (!env.is_url u0 && !env.path_exists u0) = false := by
      rcases hor with h | h <;> simp [h]
    simp only [_parse_url_input, hhead, hfalse, decide_eq_true hlen,
      Bool.and_false, if_false]
    simp
  · intro hlen
    have hdec : decide (1 < (nonBlankLines s).length) = false :=
      decide_eq_false (by omega)
    simp only [_parse_url_input, hdec, Bool.false_and, if_false]
    simp

/-- Witness for C4: with no quickmarks, every line resolving via `fuzzy_url`
to itself, nothing a valid URL and nothing an existing path, the input
`"a\nb\nc"` resolves to the single forced search `"a\nb\nc"`, not to three
opens. -/
theorem parse_url_input_multiline_witness :
    _parse_url_input
        { is_url := fun _ => false, path_exists := fun _ => false,
          quickmark := fun _ => none,
          fuzzy_url := fun u f => some ⟨u, f⟩ }
        (.str "a\nb\nc") = [⟨"a\nb\nc", true⟩] :=
  ((parse_url_input_multiline
      { is_url := fun _ => false, path_exists := fun _ => false,
        quickmark := fun _ => none, fuzzy_url := fun u f => some ⟨u, f⟩ }
      "a\nb\nc" "a").1 (by decide) (by decide) rfl rfl).trans rfl

/-- C5: `search` stores the per-call `reverse` flag as the per-window
direction; `search_next` attaches its continuation callback with `prev =
false` and the stored options, so the effective direction
`search_going_up (stored options) false = rev` equals the original search's
direction — in particular a `search` with `reverse = false` followed
immediately by `search-next` continues forward. -/
theorem search_continuation_direction (st : SearchState) (cfg : Bool)
    (tb tb2 : SearchTab) (text : String) (rev : Bool)
    (htext : text ≠ "") (htab : tb2.text = some text) :
    ∃ st1,
      search st cfg (some tb) text rev =
        ([SearchOp.setMark sq,
          SearchOp.issueSearch text ⟨cfg, rev⟩ (some false)],
          .ok st1) ∧
      st1.search_options = some ⟨cfg, rev⟩ ∧
      search_next st1 (some tb2) 1 =
        ([SearchOp.setMark sq, SearchOp.nextResult (some false)], .ok st1) ∧
      search_going_up ⟨cfg, rev⟩ false = rev := by
  refine ⟨{ search_text := some text, search_options := some ⟨cfg, rev⟩ },
    ?_, rfl, ?_, ?_⟩
  · simp [search, htext]
  · simp [search_next, htab]
  · simp [search_going_up]

/-- Witness for C5: a fresh window, a search for `"foo"` with
`reverse = false`, then `search-next` on a tab already displaying that
search: the continuation runs with the stored options and `prev = false`,
going forward. -/
theorem search_continuation_direction_witness :
    ∃ st1,
      search ⟨none, none⟩ false (some ⟨none, false⟩) "foo" false =
        ([SearchOp.setMark sq,
          SearchOp.issueSearch "foo" ⟨false, false⟩ (some false)],
          .ok st1) ∧
      st1.search_options = some ⟨false, false⟩ ∧
      search_next st1 (some ⟨some "foo", false⟩) 1 =
        ([SearchOp.setMark sq, SearchOp.nextResult (some false)], .ok st1) ∧
      search_going_up ⟨false, false⟩ false = false :=
  search_continuation_direction ⟨none, none⟩ false ⟨none, false⟩
    ⟨some "foo", false⟩ "foo" false (by decide) rfl

/-- C8: when no search has been done in the window (`search_text = none`),
`search-next` and `search-prev` raise "No search done yet." and issue no
toolkit call at all (empty op list: no mark set, no search, no scroll). -/
theorem no_search_yet_errors (st : SearchState) (tb : SearchTab) (cnt : Int)
    (h : st.search_text = none) :
    search_next st (some tb) cnt =
        ([], .error (.commandError "No search done yet.")) ∧
      search_prev st (some tb) cnt =
        ([], .error (.commandError "No search done yet.")) := by
  constructor <;> simp [search_next, search_prev, h]

/-- Witness for C8: on the initial window state, both continuation commands
error with "No search done yet." and perform nothing. -/
theorem no_search_yet_errors_witness :
    search_next ⟨none, none⟩ (some ⟨none, false⟩) 1 =
        ([], .error (.commandError "No search done yet.")) ∧
      search_prev ⟨none, none⟩ (some ⟨none, false⟩) 1 =
        ([], .error (.commandError "No search done yet.")) :=
  no_search_yet_errors ⟨none, none⟩ ⟨none, false⟩ 1 rfl

/-- C6: with `opposite = true` (and no other override flag), the selection
override inverts the configured removal behavior — `select-left` becomes
`select-right` and vice versa — and errors when the configured default is the
most-recently-used (`last-used`) behavior, which has no inverse. -/
theorem selection_override_opposite :
    _get_selection_override .selectLeftTab false false true =
        .ok (some .selectRightTab) ∧
      _get_selection_override .selectRightTab false false true =
        .ok (some .selectLeftTab) ∧
      ∃ msg, _get_selection_override .selectPreviousTab false false true =
        .error (.commandError msg) :=
  ⟨rfl, rfl, _, rfl⟩

/-- C9: `tab-move` with neither an index argument nor a count moves the
current tab to the first position (it becomes the head of the tab list, the
tab count is preserved, and the current index becomes 0); an absolute target
count outside `[1, tab_count]` raises a command error instead of moving. -/
theorem tab_move_default_and_bounds (wrap : Bool) (w : Widget) (c : Int)
    (hcnt : 1 ≤ w.count) (hlo : 0 ≤ w.currentIndex)
    (hhi : w.currentIndex < (w.count : Int)) :
    (∃ t, w.tabs.get? w.currentIndex.toNat = some t ∧
      tab_move wrap w none none =
        .ok { tabs := (w.tabs.eraseIdx w.currentIndex.toNat).insertIdx 0 t,
              currentIndex := 0 } ∧
      ((w.tabs.eraseIdx w.currentIndex.toNat).insertIdx 0 t).head? =
        some t ∧
      ((w.tabs.eraseIdx w.currentIndex.toNat).insertIdx 0 t).length =
        w.count) ∧
    (c < 1 ∨ (w.count : Int) < c →
      tab_move wrap w none (some c) =
        .error (.commandError ("Can" ++ sq ++ "t move tab to position " ++
          toString c ++ "!"))) ∧
    (0 ≤ c → c < 1 ∨ (w.count : Int) < c →
      tab_move wrap w (some (.abs c)) none =
        .error (.commandError ("Can" ++ sq ++ "t move tab to position " ++
          toString c ++ "!"))) := by
  have hc : (w.count : Int) = (w.tabs.length : Int) := rfl
  have hltlen : w.currentIndex.toNat < w.tabs.length := by omega
  constructor
  · have hget : w.tabs.get? w.currentIndex.toNat =
        some (w.tabs.get ⟨w.currentIndex.toNat, hltlen⟩) :=
      List.get?_eq_get hltlen
    refine ⟨w.tabs.get ⟨w.currentIndex.toNat, hltlen⟩, hget, ?_, ?_, ?_⟩
    · have hbound : (0 : Int) ≤ 0 ∧ (0 : Int) < (w.count : Int) := by omega
      simp [tab_move, hbound]
      split <;> simp_all
    · simp [List.insertIdx]
    · have h1 := List.length_insertIdx 0 (w.tabs.eraseIdx w.currentIndex.toNat)
        (a := w.tabs.get ⟨w.currentIndex.toNat, hltlen⟩) (Nat.zero_le _)
      have h2 := List.length_eraseIdx_add_one hltlen
      simp only [h1]
      omega
  · constructor
    · intro hout
      have hbound : ¬ ((0 : Int) ≤ c - 1 ∧ c - 1 < (w.count : Int)) := by
        omega
      have harith : c - 1 + 1 = c := by ring
      simp [tab_move, hbound, harith]
      intro h1 h2
      exfalso
      omega
    · intro h0c hout
      have hbound : ¬ ((0 : Int) ≤ c - 1 ∧ c - 1 < (w.count : Int)) := by
        omega
      have harith : c - 1 + 1 = c := by ring
      simp [tab_move, hbound, harith, h0c]
      intro h1 h2
      exfalso
      omega

/-- Witness for C9 (the spec's example): on a 4-tab window with current index
2, `tab-move` with no arguments moves the tab to the first slot, and
`tab-move` with count 9 raises instead of moving. -/
theorem tab_move_default_and_bounds_witness :
    tab_move false witWidget4 none none =
      .ok { tabs := [⟨2, false⟩, ⟨0, false⟩, ⟨1, false⟩, ⟨3, false⟩],
            currentIndex := 0 } ∧
    tab_move false witWidget4 none (some 9) =
      .error (.commandError ("Can" ++ sq ++ "t move tab to position " ++
        toString (9 : Int) ++ "!")) := by
  have h := tab_move_default_and_bounds false witWidget4 9
    (by decide) (by decide) (by decide)
  obtain ⟨⟨t, hget, heq, -, -⟩, herr, -⟩ := h
  have h2 : some t = some (⟨2, false⟩ : Tab) := hget.symm.trans (by decide)
  have ht : t = ⟨2, false⟩ := Option.some.inj h2
  subst ht
  exact ⟨heq.trans (congrArg Except.ok (by decide)), herr (by decide)⟩

/-- C7: `buffer` maps the resolution of its index string onto a focus action;
an index of the form `W/I` with both parts integer-parseable selects the tab
at 1-based index `I` in the window with id `W`, erroring when no window has
id `W` or `I` is out of `[1, tab_count]`; a non-integer-parseable index is
resolved through the fuzzy completion model, taking the first ranked match
and erroring with "No matching tab" when there is none. -/
theorem buffer_resolution (env : AppEnv) (s p0 p1 : String) (wv iv : Int)
    (bw : BrowserWindow) :
    (buffer env (some s) none =
      (_resolve_buffer_index env s).map
        (fun p => BufferAction.focusTab p.1 p.2)) ∧
    (pySplitOnce s '/' = [p0, p1] → pyInt p0 = some wv → pyInt p1 = some iv →
      (env.windows.find? (fun b => ((b.winId : Int) == wv)) = none →
        _resolve_buffer_index env s =
          .error (.commandError ("There" ++ sq ++ "s no window with id " ++
            toString wv ++ "!"))) ∧
      (env.windows.find? (fun b => ((b.winId : Int) == wv)) = some bw →
        (iv < 1 ∨ (bw.widget.count : Int) < iv →
          _resolve_buffer_index env s =
            .error (.commandError ("There" ++ sq ++ "s no tab with index " ++
              toString iv ++ "!"))) ∧
        (1 ≤ iv → iv ≤ (bw.widget.count : Int) →
          ∃ t, bw.widget.tabs.get? (iv - 1).toNat = some t ∧
            _resolve_buffer_index env s = .ok (bw.winId, t)))) ∧
    (¬ ((pySplitOnce s '/').all (fun p => (pyInt p).isSome) = true) →
      (env.fuzzyMatches s = [] →
        _resolve_buffer_index env s =
          .error (.commandError ("No matching tab for: " ++ s))) ∧
      (∀ m rest, env.fuzzyMatches s = m :: rest →
        _resolve_buffer_index env s =
          _resolve_from_parts env (pySplitOnce m '/'))) := by
  refine ⟨?_, ?_, ?_⟩
  · cases h : _resolve_buffer_index env s <;>
      simp [buffer, h, Except.map, Bind.bind, Except.bind, pure, Except.pure]
  · intro hsplit hp0 hp1
    have hall : (pySplitOnce s '/').all (fun p => (pyInt p).isSome) = true := by
      rw [hsplit]
      simp [hp0, hp1]
    have hres : _resolve_buffer_index env s =
        _resolve_from_parts env [p0, p1] := by
      simp only [_resolve_buffer_index]
      rw [hsplit] at hall ⊢
      rw [if_pos hall]
    constructor
    · intro hfind
      rw [hres]
      simp [_resolve_from_parts, hp0, hp1, hfind, Bind.bind, Except.bind,
        pure, Except.pure, throw, throwThe, MonadExceptOf.throw]
    · intro hfind
      constructor
      · intro hout
        have hcond : ¬ (0 < iv ∧ iv ≤ (bw.widget.count : Int)) := by omega
        rw [hres]
        simp [_resolve_from_parts, hp0, hp1, hfind, hcond, Bind.bind,
          Except.bind, pure, Except.pure, throw, throwThe,
          MonadExceptOf.throw]
      · intro h1 h2
        have hclen : (bw.widget.count : Int) = (bw.widget.tabs.length : Int) :=
          rfl
        have hlt : (iv - 1).toNat < bw.widget.tabs.length := by omega
        have hget : bw.widget.tabs.get? (iv - 1).toNat =
            some (bw.widget.tabs.get ⟨(iv - 1).toNat, hlt⟩) :=
          List.get?_eq_get hlt
        refine ⟨bw.widget.tabs.get ⟨(iv - 1).toNat, hlt⟩, hget, ?_⟩
        have hcond : 0 < iv ∧ iv ≤ (bw.widget.count : Int) := ⟨by omega, h2⟩
        rw [hres]
        simp only [_resolve_from_parts, hp0, hp1, hfind, Bind.bind,
          Except.bind, pure, Except.pure]
        rw [if_pos hcond, hget]
  · intro hnall
    have hresf : _resolve_buffer_index env s =
        (match env.fuzzyMatches s with
          | [] => .error (.commandError ("No matching tab for: " ++ s))
          | m :: _ => _resolve_from_parts env (pySplitOnce m '/')) := by
      simp only [_resolve_buffer_index]
      rw [if_neg hnall]
    constructor
    · intro hempty
      rw [hresf, hempty]
    · intro m rest hm
      rw [hresf, hm]

/-- A concrete one-window registry (window id 2 with three tabs) used as a
witness input. -/
def witBW : BrowserWindow :=
  { winId := 2,
    widget := { tabs := [⟨10, false⟩, ⟨20, false⟩, ⟨30, false⟩],
                currentIndex := 0 } }

/-- A concrete application environment holding only `witBW`, with no active
window and an empty completion model. -/
def witEnv : AppEnv :=
  { windows := [witBW], activeWindow := none, fuzzyMatches := fun _ => [] }

/-- Witness for C7: `buffer "2/3"` focuses tab 3 of window 2, and resolving
`"9/1"` errors because no window has id 9. -/
theorem buffer_resolution_witness :
    buffer witEnv (some "2/3") none = .ok (.focusTab 2 ⟨30, false⟩) ∧
    _resolve_buffer_index witEnv "9/1" =
      .error (.commandError ("There" ++ sq ++ "s no window with id " ++
        toString (9 : Int) ++ "!")) := by
  have h := buffer_resolution witEnv "2/3" "2" "3" 2 3 witBW
  obtain ⟨h0, hmid, -⟩ := h
  obtain ⟨-, hin⟩ := hmid (by decide) (by decide) (by decide)
  obtain ⟨-, hex⟩ := hin (by decide)
  obtain ⟨t, hget, hres⟩ := hex (by decide) (by decide)
  have ht : t = ⟨30, false⟩ := Option.some.inj (hget.symm.trans (by decide))
  subst ht
  have h9 := buffer_resolution witEnv "9/1" "9" "1" 9 1 witBW
  obtain ⟨-, hmid9, -⟩ := h9
  obtain ⟨hnone, -⟩ := hmid9 (by decide) (by decide) (by decide)
  refine ⟨?_, hnone (by decide)⟩
  rw [h0, hres]
  rfl

/-- C10: when the window contains zero tabs, `tab_next` and `tab_prev` return
the widget unchanged (and raise nothing), and the branch that would evaluate
`newidx % tab_count` is never reached, so no modulo by zero occurs. -/
theorem tab_nav_empty_window (wrap : Bool) (w : Widget) (cnt : Int)
    (h : w.count = 0) :
    tab_next wrap w cnt = w ∧ tab_prev wrap w cnt = w ∧
      tab_next_mod_branch wrap w cnt = false ∧
      tab_prev_mod_branch wrap w cnt = false := by
  simp [tab_next, tab_prev, tab_next_mod_branch, tab_prev_mod_branch, h]

/-- Witness for C10: on an empty widget, `tab_next` and `tab_prev` are no-ops
and take no modulo branch. -/
theorem tab_nav_empty_window_witness :
    tab_next true { tabs := [], currentIndex := -1 } 1 =
        { tabs := [], currentIndex := -1 } ∧
      tab_prev true { tabs := [], currentIndex := -1 } 1 =
        { tabs := [], currentIndex := -1 } ∧
      tab_next_mod_branch true { tabs := [], currentIndex := -1 } 1 = false ∧
      tab_prev_mod_branch true { tabs := [], currentIndex := -1 } 1 = false :=
  tab_nav_empty_window true { tabs := [], currentIndex := -1 } 1 (by decide)

end Commands
